import Mathlib

/-!
Shallow embedding of the `learning_abci` skill behaviours
(`src/packages/valory/skills/learning_abci/behaviours.py`) of the
academy-learning-service-template repository, together with theorems
settling the specification claims about them.

Python machine-level conventions used throughout:
* Python `str` is Lean `String`; `s[2:]` is `String.drop s 2`.
* Python `bytes` is `List Nat` (each entry one byte value).
* Python arbitrary-precision non-negative `int` is `Nat`.
* Python `float` true division is modelled as exact division in `Rat`.
* A Python function that can raise is `Except PyError _`.
* The generator suspension points (`yield from`) are modelled by passing the
  collaborator's eventual response in as an explicit argument.
-/

namespace LearningAbci

/-- Runtime errors a modelled Python code path can raise. -/
inductive PyError
  | typeError
  | valueError
  deriving DecidableEq, Repr

/-- The contract-api performatives compared against in `behaviours.py`
(`ContractApiMessage.Performative`).  `ERROR` stands for every response kind
that is not one of the two expected success kinds. -/
inductive Performative
  | GET_RAW_TRANSACTION
  | RAW_TRANSACTION
  | GET_STATE
  | STATE
  | ERROR
  deriving DecidableEq, Repr

/-- `MultiSendOperation` from `multisend.contract` (only `CALL` is used). -/
inductive MultiSendOperation
  | CALL
  | DELEGATE_CALL
  deriving DecidableEq, Repr

/-- `VAL_ETHER = 10**18` (behaviours.py line 72). -/
def VAL_ETHER : Nat := 10 ^ 18

/-- `VAL = 1` (behaviours.py line 73). -/
def VAL : Nat := 1

/-- `GNOSIS_CHAIN_ID = "gnosis"` (behaviours.py line 75). -/
def GNOSIS_CHAIN_ID : String := "gnosis"

/-- `TX_DATA = b"0x"` (behaviours.py line 76): the two bytes `0x30` (`0`) and
`0x78` (`x`). -/
def TX_DATA : List Nat := [48, 120]

/-- `SAFE_GAS = 0` (behaviours.py line 77). -/
def SAFE_GAS : Nat := 0

/-- `SafeOperation.CALL.value` (gnosis safe contract enum). -/
def opCall : Nat := 0

/-- `SafeOperation.DELEGATE_CALL.value` (gnosis safe contract enum). -/
def opDelegateCall : Nat := 1

/-- The configuration parameters read by the behaviours (`self.params`). -/
structure Params where
  transfer_target_address : String
  contract_token_address : String
  multisend_contract_address : String
  deriving DecidableEq, Repr

/-- The fields of `self.synchronized_data` the behaviours read. -/
structure SynchronizedData where
  safe_contract_address : String
  balance : Rat
  deriving DecidableEq, Repr

/-! ## Local observation stage: `APICheckBehaviour` -/

/-- Result of a modelled `get_price` run: the external HTTP requests it
issued and the price it returned. -/
structure PriceResult where
  httpRequests : List String
  price : Rat
  deriving DecidableEq, Repr

/-- `APICheckBehaviour.get_price` (lines 127-134): the Coingecko interaction
is commented out, the body only yields once and returns the constant `1.0`;
no HTTP request is issued. -/
def get_price : PriceResult :=
  { httpRequests := [], price := 1 }

/-- Response of the ERC20 `check_balance` contract call as observed by
`get_balance`: its performative and the `"wallet"` / `"token"` entries of
`raw_transaction.body` (`none` models an absent key, so that
`body.get(key, None)` returns Python `None`). -/
structure BalanceResponse where
  performative : Performative
  wallet : Option Nat
  token : Option Nat
  deriving DecidableEq, Repr

/-- A value `get_balance` can return: the Python `False` sentinel or a
(float) balance. -/
inductive BalanceVal
  | pyFalse
  | num (q : Rat)
  deriving DecidableEq, Repr

/-- `APICheckBehaviour.get_balance` (lines 136-156).  After the performative
check it computes `body.get("wallet", None) / 10**18` and then
`body.get("token", None) / 10**18`; when a key is absent the division
`None / int` raises `TypeError`.  On success it returns the float
`token / 10**18`. -/
def get_balance (r : BalanceResponse) : Except PyError BalanceVal :=
  if r.performative ≠ Performative.RAW_TRANSACTION then
    Except.ok BalanceVal.pyFalse
  else
    match r.wallet with
    | none => Except.error PyError.typeError
    | some _ =>
      match r.token with
      | none => Except.error PyError.typeError
      | some t => Except.ok (BalanceVal.num ((t : Rat) / (10 : Rat) ^ 18))

/-- The `APICheckPayload` fields assembled in `APICheckBehaviour.async_act`
(lines 112-125). -/
structure APICheckPayload where
  sender : String
  price : Rat
  balance : BalanceVal
  deriving DecidableEq, Repr

/-- `APICheckBehaviour.async_act` local part (lines 115-119): obtain the
price, obtain the balance, build the payload. -/
def apiCheckPayload (sender : String) (r : BalanceResponse) :
    Except PyError APICheckPayload :=
  match get_balance r with
  | Except.error e => Except.error e
  | Except.ok balance =>
    Except.ok { sender := sender, price := get_price.price, balance := balance }

/-! ## Decision engine: `DecisionMakingBehaviour` -/

/-- The two events `DecisionMakingBehaviour.get_event` can select. -/
inductive Event
  | TRANSACT
  | MULTI_TRANSACT
  deriving DecidableEq, Repr

/-- `DecisionMakingBehaviour.get_event` (lines 264-274): single transfer when
`synchronized_data.balance < 5`, multisend otherwise. -/
def get_event (balance : Rat) : Event :=
  if balance < 5 then Event.TRANSACT else Event.MULTI_TRANSACT

/-! ## Hex encoding helpers (Python `int.to_bytes(...).hex()`, `bytes.hex()`,
`bytes.fromhex`) -/

/-- The lowercase hex digit for a value `0 ≤ n < 16`. -/
def hexDigit (n : Nat) : Char :=
  if n < 10 then Char.ofNat (48 + n) else Char.ofNat (87 + n)

/-- Big-endian fixed-width hex rendering of a natural number using `width`
hex digits (Python `v.to_bytes(width/2, "big").hex()`). -/
def natToHexFixed (width : Nat) (v : Nat) : String :=
  ⟨(List.range width).map (fun i => hexDigit (v / 16 ^ (width - 1 - i) % 16))⟩

/-- Python `bytes.hex()`: two lowercase hex digits per byte. -/
def bytesToHex (l : List Nat) : String :=
  ⟨l.flatMap (fun b => [hexDigit (b / 16 % 16), hexDigit (b % 16)])⟩

/-- The value of one hex digit character, `none` for a non-hex character. -/
def hexDigitVal (c : Char) : Option Nat :=
  if 48 ≤ c.toNat ∧ c.toNat ≤ 57 then some (c.toNat - 48)
  else if 97 ≤ c.toNat ∧ c.toNat ≤ 102 then some (c.toNat - 87)
  else if 65 ≤ c.toNat ∧ c.toNat ≤ 70 then some (c.toNat - 55)
  else none

/-- Decode a list of hex characters two at a time into bytes; fails on a
non-hex character or an odd length. -/
def hexPairsToBytes : List Char → Option (List Nat)
  | [] => some []
  | [_] => none
  | c1 :: c2 :: rest =>
    match hexDigitVal c1, hexDigitVal c2, hexPairsToBytes rest with
    | some hi, some lo, some r => some ((16 * hi + lo) :: r)
    | _, _, _ => none

/-- Python `bytes.fromhex`: raises `ValueError` on malformed hex input. -/
def bytesFromHex (s : String) : Except PyError (List Nat) :=
  match hexPairsToBytes s.data with
  | some l => Except.ok l
  | none => Except.error PyError.valueError

/-! ## Canonical payload encoder

`hash_payload_to_hex` is imported from
`packages.valory.skills.transaction_settlement_abci.payload_tools`, which is
not part of this repository checkout. -/

/-- Modelled from the spec: the canonical payload encoder
`hash_payload_to_hex` of `transaction_settlement_abci.payload_tools` is not
under `src/` (behaviours.py only imports it, lines 61-64).  §4.4 of the spec:
a deterministic pure serialisation with fixed field order (`tx_hash`,
`ether_value`, `safe_tx_gas`, `to_address`, `data`, plus `operation` only
when non-default), fixed-width big-endian encoding for integer fields,
addresses at their fixed width and the `data` bytes appended verbatim. -/
def hash_payload_to_hex (safe_tx_hash : String) (ether_value : Nat)
    (safe_tx_gas : Nat) (to_address : String) (data : List Nat)
    (operation : Nat) : String :=
  safe_tx_hash ++ natToHexFixed 64 ether_value ++ natToHexFixed 64 safe_tx_gas
    ++ to_address
    ++ (if operation = opCall then "" else natToHexFixed 2 operation)
    ++ bytesToHex data

/-! ## Single-transfer path: `TxPreparationBehaviour` -/

/-- The keyword arguments of a `get_raw_safe_transaction_hash` contract call
(the descriptor handed to the signing-hash collaborator).  `operation` is
`none` when the call does not pass the keyword (the collaborator's default
applies). -/
structure SafeHashRequest where
  contract_address : String
  to_address : String
  value : Nat
  data : List Nat
  operation : Option Nat
  safe_tx_gas : Nat
  chain_id : String
  deriving DecidableEq, Repr

/-- The request `TxPreparationBehaviour.get_tx_hash` sends (lines 313-323):
`value=VAL_ETHER`, `data=TX_DATA`, `safe_tx_gas=SAFE_GAS`, chain `gnosis`,
no explicit `operation`. -/
def txPrepHashRequest (p : Params) (sd : SynchronizedData) : SafeHashRequest :=
  { contract_address := sd.safe_contract_address
    to_address := p.transfer_target_address
    value := VAL_ETHER
    data := TX_DATA
    operation := none
    safe_tx_gas := SAFE_GAS
    chain_id := GNOSIS_CHAIN_ID }

/-- Response of a `get_raw_safe_transaction_hash` state call: its
performative and the `state.body["tx_hash"]` string. -/
structure StateResponse where
  performative : Performative
  tx_hash : String
  deriving DecidableEq, Repr

/-- A value `TxPreparationBehaviour.get_tx_hash` can return: the Python
`False` sentinel or a hash string. -/
inductive TxHashResult
  | failure
  | hash (s : String)
  deriving DecidableEq, Repr

/-- `TxPreparationBehaviour.get_tx_hash` (lines 310-334): on any
performative other than `STATE` it returns `False`; otherwise it returns
`state.body["tx_hash"][2:]`. -/
def get_tx_hash (r : StateResponse) : TxHashResult :=
  if r.performative = Performative.STATE then
    TxHashResult.hash (String.drop r.tx_hash 2)
  else
    TxHashResult.failure

/-- The argument tuple `TxPreparationBehaviour.async_act` (lines 292-298)
passes to `hash_payload_to_hex`: `(safe_tx_hash, ether_value, safe_tx_gas,
to_address, data)`.  The first component is whatever `get_tx_hash` returned
— the `False` sentinel included, since `async_act` performs no check. -/
def txPrepEncoderArgs (p : Params) (r : StateResponse) :
    TxHashResult × Nat × Nat × String × List Nat :=
  (get_tx_hash r, VAL_ETHER, SAFE_GAS, p.transfer_target_address, TX_DATA)

/-- `TxPreparationBehaviour.async_act` local part (lines 287-302): feed the
result of `get_tx_hash` to `hash_payload_to_hex` unconditionally.  When the
result is the Python `False` sentinel the encoder raises `TypeError`
(`len(False)` in its length validation); otherwise the payload string is
produced. -/
def txPrepAct (p : Params) (r : StateResponse) : Except PyError String :=
  match get_tx_hash r with
  | TxHashResult.failure => Except.error PyError.typeError
  | TxHashResult.hash s =>
    Except.ok (hash_payload_to_hex s VAL_ETHER SAFE_GAS
      p.transfer_target_address TX_DATA opCall)

/-! ## Batch path: `MultiSendTxBehaviour` -/

/-- Response of a `GET_RAW_TRANSACTION` contract call as used in the
multisend path: its performative, the `raw_transaction.body["tx_hash"]`
string (gnosis safe `get_raw_safe_transaction_hash`) and the
`raw_transaction.body["data"]` payload (ERC20 `build_transfer_tx` bytes,
rendered as their hex string, or multisend `get_tx_data` string). -/
structure RawTxResponse where
  performative : Performative
  tx_hash : String
  data : String
  deriving DecidableEq, Repr

/-- One entry of `multisend_txs`: the dict literal built by `transfer_tx`
(lines 433-438) or `token_transfer_tx` (lines 462-468).  `chain_id` is
`none` for the entry that omits the key. -/
structure MultiSendTx where
  operation : MultiSendOperation
  -- the dict key is "to"; `to` is reserved in Lean
  to_addr : String
  value : Nat
  data : String
  chain_id : Option String
  deriving DecidableEq, Repr

/-- `MultiSendTxBehaviour.transfer_tx` (lines 408-438): on any performative
other than `RAW_TRANSACTION` it returns the Python `None` sentinel;
otherwise the dict with operation `CALL`, the transfer target, `value=VAL`
and `body["tx_hash"]` as data. -/
def transfer_tx (p : Params) (r : RawTxResponse) : Option MultiSendTx :=
  if r.performative = Performative.RAW_TRANSACTION then
    some { operation := MultiSendOperation.CALL
           to_addr := p.transfer_target_address
           value := VAL
           data := r.tx_hash
           chain_id := none }
  else
    none

/-- `MultiSendTxBehaviour.token_transfer_tx` (lines 440-468): on any
performative other than `RAW_TRANSACTION` it returns the Python `None`
sentinel; otherwise the dict with operation `CALL`, the token contract as
target, `value=VAL`, `HexBytes(body["data"].hex())` as data and an extra
`chain_id` key. -/
def token_transfer_tx (p : Params) (r : RawTxResponse) : Option MultiSendTx :=
  if r.performative = Performative.RAW_TRANSACTION then
    some { operation := MultiSendOperation.CALL
           to_addr := p.contract_token_address
           value := VAL
           data := r.data
           chain_id := some GNOSIS_CHAIN_ID }
  else
    none

/-- The `multisend_txs` list built in `MultiSendTxBehaviour.async_act`
(lines 346-351): the results of `transfer_tx` and `token_transfer_tx` are
appended unconditionally, `None` sentinels included.  This is exactly the
`multi_send_txs` argument handed to the multisend batch encoder
(`get_tx_data`, lines 353-360). -/
def multisendBatch (p : Params) (transferResp tokenResp : RawTxResponse) :
    List (Option MultiSendTx) :=
  [transfer_tx p transferResp, token_transfer_tx p tokenResp]

/-- Python `sum(tx["value"] for tx in multisend_txs)` (lines 371 and 392):
left-to-right, raising `TypeError` at the first `None` entry
(`None["value"]` is not subscriptable). -/
def sumValues : List (Option MultiSendTx) → Except PyError Nat
  | [] => Except.ok 0
  | none :: _ => Except.error PyError.typeError
  | some tx :: rest =>
    match sumValues rest with
    | Except.error e => Except.error e
    | Except.ok s => Except.ok (tx.value + s)

/-- The `get_raw_safe_transaction_hash` request of the multisend path
(lines 365-376): `multisend_data = body["data"][2:]` from the batch-encoder
response, then keyword arguments evaluated in order — `to_address`,
`value=sum(tx["value"] ...)` (may raise `TypeError`),
`data=bytes.fromhex(multisend_data)` (may raise `ValueError`),
`operation=DELEGATE_CALL`, `safe_tx_gas=SAFE_GAS`, chain `gnosis`. -/
def msSafeHashRequest (p : Params) (sd : SynchronizedData)
    (txs : List (Option MultiSendTx)) (msResp : RawTxResponse) :
    Except PyError SafeHashRequest :=
  match sumValues txs with
  | Except.error e => Except.error e
  | Except.ok v =>
    match bytesFromHex (String.drop msResp.data 2) with
    | Except.error e => Except.error e
    | Except.ok d =>
      Except.ok { contract_address := sd.safe_contract_address
                  to_address := p.transfer_target_address
                  value := v
                  data := d
                  operation := some opDelegateCall
                  safe_tx_gas := SAFE_GAS
                  chain_id := GNOSIS_CHAIN_ID }

/-- The argument record `MultiSendTxBehaviour.async_act` hands to
`hash_payload_to_hex` (lines 390-397). -/
structure EncoderArgs where
  safe_tx_hash : String
  ether_value : Nat
  safe_tx_gas : Nat
  to_address : String
  data : List Nat
  operation : Nat
  deriving DecidableEq, Repr

/-- `MultiSendTxBehaviour.async_act`, from the batch-encoder response to the
arguments of `hash_payload_to_hex` (lines 361-397): build the safe-hash
request (its `value=sum(...)` may raise first), return `None` when the
safe-hash response performative is not `STATE` (lines 378-384), otherwise
strip `tx_hash[2:]` and recompute `sum(...)` and `bytes.fromhex(...)` for
the encoder call. -/
def msEncoderArgs (p : Params) (sd : SynchronizedData)
    (txs : List (Option MultiSendTx)) (msResp : RawTxResponse)
    (hashResp : StateResponse) : Except PyError (Option EncoderArgs) :=
  match msSafeHashRequest p sd txs msResp with
  | Except.error e => Except.error e
  | Except.ok _ =>
    if hashResp.performative ≠ Performative.STATE then
      Except.ok none
    else
      match sumValues txs, bytesFromHex (String.drop msResp.data 2) with
      | Except.error e, _ => Except.error e
      | Except.ok _, Except.error e => Except.error e
      | Except.ok v, Except.ok d =>
        Except.ok (some { safe_tx_hash := String.drop hashResp.tx_hash 2
                          ether_value := v
                          safe_tx_gas := SAFE_GAS
                          to_address := p.transfer_target_address
                          data := d
                          operation := opDelegateCall })

/-- Apply the canonical payload encoder to an argument record. -/
def encodeArgs (a : EncoderArgs) : String :=
  hash_payload_to_hex a.safe_tx_hash a.ether_value a.safe_tx_gas
    a.to_address a.data a.operation

/-- The batch-assembly tail of `MultiSendTxBehaviour.async_act`
parametrised over the already built `multisend_txs` list (lines 353-402):
`Except.ok none` models returning without submitting a payload,
`Except.ok (some s)` models submitting the payload `s`. -/
def assembleAndPay (p : Params) (sd : SynchronizedData)
    (txs : List (Option MultiSendTx)) (msResp : RawTxResponse)
    (hashResp : StateResponse) : Except PyError (Option String) :=
  match msEncoderArgs p sd txs msResp hashResp with
  | Except.error e => Except.error e
  | Except.ok none => Except.ok none
  | Except.ok (some a) => Except.ok (some (encodeArgs a))

/-- The responses consumed by one run of `MultiSendTxBehaviour.async_act`,
in the order the four collaborator calls are made. -/
structure MultiSendResponses where
  transferResp : RawTxResponse
  tokenResp : RawTxResponse
  msResp : RawTxResponse
  hashResp : StateResponse
  deriving DecidableEq, Repr

/-- `MultiSendTxBehaviour.async_act` local part (lines 341-402). -/
def multiSendAct (p : Params) (sd : SynchronizedData)
    (rs : MultiSendResponses) : Except PyError (Option String) :=
  assembleAndPay p sd (multisendBatch p rs.transferResp rs.tokenResp)
    rs.msResp rs.hashResp

/-! ## Projection helpers and concrete sample inputs -/

/-- The `value` keyword of a built safe-hash request, when it was built. -/
def requestValueOf : Except PyError SafeHashRequest → Option Nat
  | Except.ok r => some r.value
  | Except.error _ => none

/-- The `data` keyword of a built safe-hash request, when it was built. -/
def requestDataOf : Except PyError SafeHashRequest → Option (List Nat)
  | Except.ok r => some r.data
  | Except.error _ => none

/-- The `ether_value` argument handed to the encoder, when it was reached. -/
def encoderEtherOf : Except PyError (Option EncoderArgs) → Option Nat
  | Except.ok (some a) => some a.ether_value
  | _ => none

/-- The `safe_tx_hash` argument handed to the encoder, when it was
reached. -/
def encoderHashOf : Except PyError (Option EncoderArgs) → Option String
  | Except.ok (some a) => some a.safe_tx_hash
  | _ => none

/-- Whether a run of the batch behaviour submitted a payload. -/
def producesPayload : Except PyError (Option String) → Bool
  | Except.ok (some _) => true
  | _ => false

/-- Sample configuration parameters. -/
def sampleParams : Params :=
  { transfer_target_address := "0xaaaaaaaaaaaaaaaaaaaaaaaaaaaaaaaaaaaaaaaa"
    contract_token_address := "0xbbbbbbbbbbbbbbbbbbbbbbbbbbbbbbbbbbbbbbbb"
    multisend_contract_address := "0xcccccccccccccccccccccccccccccccccccccccc" }

/-- Sample synchronized data snapshot. -/
def sampleSync : SynchronizedData :=
  { safe_contract_address := "0xdddddddddddddddddddddddddddddddddddddddd"
    balance := 0 }

/-- A failing signing-hash collaborator response. -/
def errStateResp : StateResponse :=
  { performative := Performative.ERROR, tx_hash := "0xabc123" }

/-- A successful signing-hash collaborator response. -/
def okStateResp : StateResponse :=
  { performative := Performative.STATE, tx_hash := "0xabc123" }

/-- A failing `get_raw_safe_transaction_hash` raw-transaction response. -/
def errRawResp : RawTxResponse :=
  { performative := Performative.ERROR, tx_hash := "0xdead", data := "0xff" }

/-- A successful ERC20 `build_transfer_tx` response. -/
def okTokenResp : RawTxResponse :=
  { performative := Performative.RAW_TRANSACTION, tx_hash := "", data := "ff" }

/-- A successful multisend `get_tx_data` batch-encoder response. -/
def okMsResp : RawTxResponse :=
  { performative := Performative.RAW_TRANSACTION, tx_hash := ""
    data := "0xabcd" }

/-- A sample elementary call dict with value 1. -/
def sampleTx1 : MultiSendTx :=
  { operation := MultiSendOperation.CALL
    to_addr := "0xaaaaaaaaaaaaaaaaaaaaaaaaaaaaaaaaaaaaaaaa"
    value := 1
    data := "0xdead"
    chain_id := none }

/-- A second sample elementary call dict with value 1. -/
def sampleTx2 : MultiSendTx :=
  { operation := MultiSendOperation.CALL
    to_addr := "0xbbbbbbbbbbbbbbbbbbbbbbbbbbbbbbbbbbbbbbbb"
    value := 1
    data := "ff"
    chain_id := some "gnosis" }

/-- A sample successful ERC20 `check_balance` response. -/
def sampleBalanceResp : BalanceResponse :=
  { performative := Performative.RAW_TRANSACTION, wallet := some 0
    token := some 3 }

/-- The `APICheckPayload` built from `sampleBalanceResp`. -/
def samplePayload : APICheckPayload :=
  { sender := "agent", price := 1
    balance := BalanceVal.num ((3 : Rat) / (10 : Rat) ^ 18) }

/-! ## Shared lemmas -/

/-- `sum(tx["value"] for tx in txs)` over a list of genuine (non-`None`)
call dicts is the arbitrary-precision sum of their `value` fields. -/
theorem sumValues_map_some (txs : List MultiSendTx) :
    sumValues (txs.map some) = Except.ok ((txs.map MultiSendTx.value).sum) := by
  induction txs with
  | nil => rfl
  | cons t ts ih => simp [sumValues, ih]

/-! ## Claim theorems -/

/-- C1: the claim fails on the code.  When the signing-hash collaborator
responds with any performative other than `STATE`, `get_tx_hash` returns the
Python `False` sentinel, and `TxPreparationBehaviour.async_act` passes that
sentinel on — unchecked — as the `safe_tx_hash` argument of the canonical
payload encoder; the round only fails to submit a payload because the
encoder then raises `TypeError` on the non-string input. -/
theorem C1_sentinel_reaches_encoder :
    (txPrepEncoderArgs sampleParams errStateResp).1 = TxHashResult.failure ∧
    txPrepAct sampleParams errStateResp = Except.error PyError.typeError :=
  ⟨rfl, rfl⟩

/-- C2: the claim fails on the code.  When `transfer_tx` receives an
unexpected performative it does return the `None` sentinel, but
`MultiSendTxBehaviour.async_act` appends the sentinel to `multisend_txs`
anyway, and that batch — sentinel included — is exactly what is handed to
the multisend batch encoder (`get_tx_data`); the round then dies with a
`TypeError` at `sum(tx["value"] ...)` rather than aborting cleanly. -/
theorem C2_sentinel_in_batch :
    multisendBatch sampleParams errRawResp okTokenResp
      = [none,
         some { operation := MultiSendOperation.CALL
                to_addr := "0xbbbbbbbbbbbbbbbbbbbbbbbbbbbbbbbbbbbbbbbb"
                value := 1
                data := "ff"
                chain_id := some "gnosis" }] ∧
    multiSendAct sampleParams sampleSync
      { transferResp := errRawResp, tokenResp := okTokenResp
        msResp := okMsResp, hashResp := okStateResp }
      = Except.error PyError.typeError :=
  ⟨rfl, rfl⟩

/-- C3: the claim fails on the code.  The single-transfer descriptor sent to
the signing-hash collaborator carries `value = VAL_ETHER = 10^18`, not `1`
(the code's own comment above `get_tx_hash` says "a 1 wei transfer"), and
the same `10^18` is echoed to the encoder as `ether_value`; the remaining
fields do match the claim: `data = b"0x"`, `safe_tx_gas = 0`, no explicit
operation keyword (the collaborator's default `CALL` applies) and chain
`gnosis`. -/
theorem C3_value_not_one :
    (txPrepHashRequest sampleParams sampleSync).value = 10 ^ 18 ∧
    (txPrepHashRequest sampleParams sampleSync).value ≠ 1 ∧
    (txPrepHashRequest sampleParams sampleSync).data = TX_DATA ∧
    (txPrepHashRequest sampleParams sampleSync).safe_tx_gas = 0 ∧
    (txPrepHashRequest sampleParams sampleSync).operation = none ∧
    (txPrepHashRequest sampleParams sampleSync).chain_id = "gnosis" ∧
    (txPrepEncoderArgs sampleParams okStateResp).2.1 = 10 ^ 18 := by
  refine ⟨rfl, ?_, rfl, rfl, rfl, rfl, rfl⟩
  decide

/-- C4 counterexample: the claim fails on the code.  The batch-assembly tail
of `MultiSendTxBehaviour.async_act`, applied to an empty `multisend_txs`
sequence, does not fail with any `EmptyBatch` error: it builds a safe-hash
request whose `value` is `sum([]) = 0` and goes on to submit a payload. -/
theorem C4_counterexample :
    requestValueOf (msSafeHashRequest sampleParams sampleSync [] okMsResp)
      = some 0 ∧
    producesPayload
      (assembleAndPay sampleParams sampleSync [] okMsResp okStateResp)
      = true :=
  ⟨rfl, rfl⟩

/-- C4 (amended): batch assembly performs no emptiness check — applied to an
empty call sequence it silently computes aggregate value `sum([]) = 0` and
produces a payload rather than failing; in the program as written the batch
handed to the assembler always contains exactly two entries, so the empty
case never arises in `async_act`. -/
theorem C4_no_empty_check (p : Params) (t1 t2 : RawTxResponse) :
    (multisendBatch p t1 t2).length = 2 ∧
    sumValues [] = Except.ok 0 ∧
    producesPayload (assembleAndPay p sampleSync [] okMsResp okStateResp)
      = true :=
  ⟨rfl, rfl, rfl⟩

/-- C5: for every non-empty sequence of genuine elementary calls, the
`value` keyword of the safe-hash request and the `ether_value` argument of
the canonical payload encoder both equal the arbitrary-precision sum of the
calls' `value` fields (both are `sum(tx["value"] for tx in multisend_txs)`,
lines 371 and 392). -/
theorem C5_aggregate_value (p : Params) (sd : SynchronizedData)
    (txs : List MultiSendTx) (msResp : RawTxResponse)
    (hashResp : StateResponse) (_hne : txs ≠ [])
    (hperf : hashResp.performative = Performative.STATE) (d : List Nat)
    (hd : bytesFromHex (String.drop msResp.data 2) = Except.ok d) :
    requestValueOf (msSafeHashRequest p sd (txs.map some) msResp)
      = some ((txs.map MultiSendTx.value).sum) ∧
    encoderEtherOf (msEncoderArgs p sd (txs.map some) msResp hashResp)
      = some ((txs.map MultiSendTx.value).sum) := by
  constructor
  · simp [requestValueOf, msSafeHashRequest, sumValues_map_some, hd]
  · simp [encoderEtherOf, msEncoderArgs, msSafeHashRequest,
      sumValues_map_some, hd, hperf]

/-- C5 witness: two calls of value 1 each yield aggregate value 2 in both
places. -/
theorem C5_witness :
    requestValueOf
      (msSafeHashRequest sampleParams sampleSync
        ([sampleTx1, sampleTx2].map some) okMsResp) = some 2 ∧
    encoderEtherOf
      (msEncoderArgs sampleParams sampleSync
        ([sampleTx1, sampleTx2].map some) okMsResp okStateResp) = some 2 := by
  have h := C5_aggregate_value sampleParams sampleSync [sampleTx1, sampleTx2]
    okMsResp okStateResp (by decide) rfl [171, 205] rfl
  simpa [sampleTx1, sampleTx2] using h

/-- C6: a successful hash response is stored with exactly its first two
characters removed — `get_tx_hash` returns `tx_hash[2:]`, the multisend
path hands `tx_hash[2:]` to the encoder, and the batch-encoder blob is used
as `body["data"][2:]` — each strip applied exactly once. -/
theorem C6_strip_once (r : StateResponse)
    (hr : r.performative = Performative.STATE) (p : Params)
    (sd : SynchronizedData) (txs : List MultiSendTx)
    (msResp : RawTxResponse) (d : List Nat)
    (hd : bytesFromHex (String.drop msResp.data 2) = Except.ok d) :
    get_tx_hash r = TxHashResult.hash (String.drop r.tx_hash 2) ∧
    encoderHashOf (msEncoderArgs p sd (txs.map some) msResp r)
      = some (String.drop r.tx_hash 2) ∧
    requestDataOf (msSafeHashRequest p sd (txs.map some) msResp) = some d := by
  refine ⟨by simp [get_tx_hash, hr], ?_, ?_⟩
  · simp [encoderHashOf, msEncoderArgs, msSafeHashRequest,
      sumValues_map_some, hd, hr]
  · simp [requestDataOf, msSafeHashRequest, sumValues_map_some, hd]

/-- C6 witness: the response hash `"0xabc123"` is stored as `"abc123"`, and
the batch blob `"0xabcd"` is decoded from `"abcd"` (bytes `[171, 205]`). -/
theorem C6_witness :
    get_tx_hash okStateResp = TxHashResult.hash "abc123" ∧
    requestDataOf (msSafeHashRequest sampleParams sampleSync [] okMsResp)
      = some [171, 205] := by
  have h := C6_strip_once okStateResp rfl sampleParams sampleSync []
    okMsResp [171, 205] rfl
  exact ⟨h.1.trans (by decide), h.2.2⟩

/-- C7: the decision function selects the single-transfer event exactly when
the balance is strictly below 5 and the batch-transfer event when it is at
least 5; in particular balance 3 yields `TRANSACT` and balance 10 yields
`MULTI_TRANSACT`. -/
theorem C7_branch_threshold (b : Rat) :
    (b < 5 → get_event b = Event.TRANSACT) ∧
    (5 ≤ b → get_event b = Event.MULTI_TRANSACT) ∧
    get_event 3 = Event.TRANSACT ∧
    get_event 10 = Event.MULTI_TRANSACT := by
  refine ⟨fun h => ?_, fun h => ?_, by decide, by decide⟩
  · unfold get_event
    rw [if_pos h]
  · unfold get_event
    rw [if_neg (not_lt.mpr h)]

/-- C7 witness: balances 3 and 10 produce the two branches. -/
theorem C7_witness :
    get_event 3 = Event.TRANSACT ∧ get_event 10 = Event.MULTI_TRANSACT :=
  ⟨(C7_branch_threshold 3).1 (by norm_num),
   (C7_branch_threshold 10).2.1 (by norm_num)⟩

/-- C8: the canonical payload encoder is deterministic — two invocations
with identical `tx_hash`, `ether_value`, `safe_tx_gas`, `to_address`, `data`
and `operation` values produce byte-identical hex strings. -/
theorem C8_encoder_deterministic (h1 h2 : String) (v1 v2 g1 g2 : Nat)
    (a1 a2 : String) (d1 d2 : List Nat) (o1 o2 : Nat) (hh : h1 = h2)
    (hv : v1 = v2) (hg : g1 = g2) (ha : a1 = a2) (hd : d1 = d2)
    (ho : o1 = o2) :
    hash_payload_to_hex h1 v1 g1 a1 d1 o1
      = hash_payload_to_hex h2 v2 g2 a2 d2 o2 := by
  subst hh hv hg ha hd ho
  rfl

/-- C8 witness: a concrete pair of identical invocations. -/
theorem C8_witness :
    hash_payload_to_hex "deadbeef" 1 0
        "0xaaaaaaaaaaaaaaaaaaaaaaaaaaaaaaaaaaaaaaaa" [48, 120] 0
      = hash_payload_to_hex "deadbeef" 1 0
        "0xaaaaaaaaaaaaaaaaaaaaaaaaaaaaaaaaaaaaaaaa" [48, 120] 0 :=
  C8_encoder_deterministic "deadbeef" "deadbeef" 1 1 0 0
    "0xaaaaaaaaaaaaaaaaaaaaaaaaaaaaaaaaaaaaaaaa"
    "0xaaaaaaaaaaaaaaaaaaaaaaaaaaaaaaaaaaaaaaaa" [48, 120] [48, 120] 0 0
    rfl rfl rfl rfl rfl rfl

/-- C9: `get_price` issues no external request and returns the constant 1;
consequently every successfully built `APICheckPayload` carries price 1, so
the agreement payload never depends on any actual price feed value. -/
theorem C9_price_constant :
    get_price.httpRequests = [] ∧ get_price.price = 1 ∧
    ∀ s r pl, apiCheckPayload s r = Except.ok pl → pl.price = 1 := by
  refine ⟨rfl, rfl, ?_⟩
  intro s r pl h
  unfold apiCheckPayload at h
  cases hg : get_balance r with
  | error e =>
    rw [hg] at h
    exact Except.noConfusion h
  | ok b =>
    rw [hg] at h
    injection h with h2
    rw [← h2]
    rfl

/-- C9 witness: the payload built from a concrete successful balance
response carries price 1. -/
theorem C9_witness : samplePayload.price = 1 :=
  C9_price_constant.2.2 "agent" sampleBalanceResp samplePayload rfl

/-- C10: on a `RAW_TRANSACTION` response whose body lacks the `"wallet"` or
`"token"` key, `get_balance` raises `TypeError` (`None / 10**18`) instead of
returning the `False` sentinel; on the fully successful path it returns the
true-division quotient `token / 10**18` as an exact (non-floor) quotient. -/
theorem C10_balance_paths (r : BalanceResponse)
    (hp : r.performative = Performative.RAW_TRANSACTION) :
    (r.wallet = none → get_balance r = Except.error PyError.typeError) ∧
    (∀ w, r.wallet = some w → r.token = none →
      get_balance r = Except.error PyError.typeError) ∧
    (∀ w t, r.wallet = some w → r.token = some t →
      get_balance r = Except.ok (BalanceVal.num ((t : Rat) / (10 : Rat) ^ 18))) := by
  refine ⟨?_, ?_, ?_⟩
  · intro hw
    simp [get_balance, hp, hw]
  · intro w hw ht
    simp [get_balance, hp, hw, ht]
  · intro w t hw ht
    simp [get_balance, hp, hw, ht]

/-- C10 witness: a body without `"wallet"` raises `TypeError`; a body with
`token = 3` returns the exact quotient `3 / 10^18`, which is not a natural
number. -/
theorem C10_witness :
    get_balance { performative := Performative.RAW_TRANSACTION
                  wallet := none, token := some 3 }
      = Except.error PyError.typeError ∧
    get_balance sampleBalanceResp
      = Except.ok (BalanceVal.num ((3 : Rat) / (10 : Rat) ^ 18)) :=
  ⟨(C10_balance_paths _ rfl).1 rfl,
   (C10_balance_paths sampleBalanceResp rfl).2.2 0 3 rfl rfl⟩

end LearningAbci
